import Mathlib

/-!
Shallow embedding of the concurrency core of the voice-agent backend
(`src/agent.py`, "fixed" variant): phone/date validation, the single-flight
operation coordinator (`query_knowledge_base`, `schedule_appointment`), the
progress-feedback ticker (`controlled_feedback`), and the idle-silence
monitor (`FixedConversationManager._fixed_silence_monitor`).

Modelling conventions:
- event-loop timestamps are `Nat` seconds (the code uses float seconds);
- asyncio tasks are modelled by explicit status values plus an event trace
  (`AgentEvent`) recording backend-call starts, ticker starts, ticker
  cancellation requests, and awaited ticker cancellations;
- Python string operations are re-implemented on `List Char`
  (`str.replace` with empty replacement, `str.strip`, regex character
  classes as character filters; `\d` and `\s` are modelled over ASCII);
- Python truthiness of strings/floats (`if not phone:`,
  `if consultation_state.get("last_completed"):`) is modelled explicitly
  (empty string falsy, timestamp 0 falsy).
-/

namespace VoiceAgent

/-- Does the list start with the given pattern? (`pat` then anything). -/
def startsWithL : List Char → List Char → Bool
  | [], _ => true
  | _ :: _, [] => false
  | p :: ps, c :: cs => p == c && startsWithL ps cs

/-- Does `s` contain `pat` as a contiguous substring? (Python `pat in s`). -/
def containsSub (pat : List Char) : List Char → Bool
  | [] => startsWithL pat []
  | c :: cs => startsWithL pat (c :: cs) || containsSub pat cs

/-- Worker for Python `s.replace(pat, "")`: delete each leftmost,
non-overlapping occurrence of the (nonempty) pattern `p :: ps`. The fuel
argument (instantiated with the list length, which bounds the number of
steps) makes the recursion structural. -/
def pyReplaceDelAux (p : Char) (ps : List Char) : Nat → List Char → List Char
  | _, [] => []
  | 0, l => l
  | fuel + 1, c :: rest =>
    if startsWithL (p :: ps) (c :: rest) then
      pyReplaceDelAux p ps fuel (rest.drop ps.length)
    else
      c :: pyReplaceDelAux p ps fuel rest

/-- Python `s.replace(pat, "")` on char lists. -/
def pyReplaceDel (p : Char) (ps : List Char) (l : List Char) : List Char :=
  pyReplaceDelAux p ps l.length l

/-- ASCII whitespace stripped by Python `str.strip()` / matched by `\s`. -/
def isPySpace (c : Char) : Bool :=
  c == ' ' || c == '\t' || c == '\n' || c == '\r' || c == '\x0b' || c == '\x0c'

/-- Python `str.strip()`: drop leading and trailing whitespace. -/
def pyStrip (l : List Char) : List Char :=
  ((l.dropWhile isPySpace).reverse.dropWhile isPySpace).reverse

/-- Characters removed by `re.sub(r'[\s\-\(\)]+', '', ...)` in
`normalize_phone`. -/
def isPhoneStripChar (c : Char) : Bool :=
  isPySpace c || c == '-' || c == '(' || c == ')'

/-- `re.match(r'^\+51\d{9}$', ...)`: a `+51` prefix followed by exactly nine
digits. -/
def matchesPlus51 : List Char → Bool
  | '+' :: '5' :: '1' :: ds => ds.length == 9 && ds.all Char.isDigit
  | _ => false

/-- `normalize_phone` (src/agent.py:85-101): strip separator characters,
default the country code to `+51`, validate `^\+51\d{9}$`.
Returns `(normalized, error_message)`. -/
def normalize_phone (phone : Option String) : Option String × Option String :=
  match phone with
  | none => (none, some "Por favor, proporciona un número de celular válido.")
  | some p0 =>
    if p0.isEmpty then
      (none, some "Por favor, proporciona un número de celular válido.")
    else
      let cleaned := (pyStrip p0.data).filter (fun c => !isPhoneStripChar c)
      let withCc :=
        match cleaned with
        | '+' :: _ => cleaned
        | _ => '+' :: '5' :: '1' :: cleaned
      if matchesPlus51 withCc then
        (some (String.mk withCc), none)
      else
        (none, some "El número de celular no es válido. Debe tener 9 dígitos, por ejemplo, +51987654321.")

/-! ## Dates (America/Lima calendar arithmetic) -/

/-- A calendar date, day/month/year. -/
structure DateDMY where
  d : Nat
  m : Nat
  y : Nat
deriving DecidableEq, Repr

/-- Gregorian leap year. -/
def isLeap (y : Nat) : Bool :=
  (y % 4 == 0 && y % 100 != 0) || (y % 400 == 0)

/-- Days in a month of a given year. -/
def daysInMonth (y m : Nat) : Nat :=
  if m == 2 then (if isLeap y then 29 else 28)
  else if m == 4 || m == 6 || m == 9 || m == 11 then 30
  else 31

/-- Days in the year strictly before month `m`. -/
def daysBeforeMonth (y m : Nat) : Nat :=
  ((List.range m).filter (fun k => 1 ≤ k)).foldl (fun acc k => acc + daysInMonth y k) 0

/-- Rata die day number of a date (01/01/0001 ↦ 1), proleptic Gregorian. -/
def rataDie (dt : DateDMY) : Nat :=
  365 * (dt.y - 1) + (dt.y - 1) / 4 + (dt.y - 1) / 400 - (dt.y - 1) / 100
    + daysBeforeMonth dt.y dt.m + dt.d

/-- Weekday with Python's convention (`datetime.weekday()`): 0 = Monday. -/
def weekday (dt : DateDMY) : Nat :=
  (rataDie dt + 6) % 7

/-- The calendar day after `dt`. -/
def nextDay (dt : DateDMY) : DateDMY :=
  if dt.d < daysInMonth dt.y dt.m then ⟨dt.d + 1, dt.m, dt.y⟩
  else if dt.m < 12 then ⟨1, dt.m + 1, dt.y⟩
  else ⟨1, 1, dt.y + 1⟩

/-- Strict date comparison, as Python compares `datetime.date` values. -/
def dateLt (a b : DateDMY) : Bool :=
  a.y < b.y || (a.y == b.y && (a.m < b.m || (a.m == b.m && a.d < b.d)))

/-- Two-digit zero-padded rendering (`strftime` `%d` / `%m`). -/
def pad2 (n : Nat) : String :=
  if n < 10 then "0" ++ toString n else toString n

/-- Four-digit zero-padded rendering (`strftime` `%Y`). -/
def pad4 (n : Nat) : String :=
  if n < 10 then "000" ++ toString n
  else if n < 100 then "00" ++ toString n
  else if n < 1000 then "0" ++ toString n
  else toString n

/-- `strftime("%d/%m/%Y")`. -/
def fmtDMY (dt : DateDMY) : String :=
  pad2 dt.d ++ "/" ++ pad2 dt.m ++ "/" ++ pad4 dt.y

/-- The Spanish weekday map of `parse_relative_date` (0 = lunes). -/
def daysMap (s : String) : Option Nat :=
  if s == "lunes" then some 0
  else if s == "martes" then some 1
  else if s == "miércoles" || s == "miercoles" then some 2
  else if s == "jueves" then some 3
  else if s == "viernes" then some 4
  else if s == "sábado" || s == "sabado" then some 5
  else if s == "domingo" then some 6
  else none

/-- English lowercase weekday names (`strftime('%A').lower()`, C locale). -/
def enDay (w : Nat) : String :=
  if w == 0 then "monday"
  else if w == 1 then "tuesday"
  else if w == 2 then "wednesday"
  else if w == 3 then "thursday"
  else if w == 4 then "friday"
  else if w == 5 then "saturday"
  else "sunday"

/-- Python `str.lower()` for the ASCII range. -/
def charLower (c : Char) : Char :=
  if 65 ≤ c.toNat ∧ c.toNat ≤ 90 then Char.ofNat (c.toNat + 32) else c

/-- `s.lower().strip()` as applied by `parse_relative_date` to its string
arguments. -/
def pyLowerStrip (s : String) : List Char :=
  pyStrip (s.data.map charLower)

/-- Split a char list on a separator character (Python `s.split(sep)` /
the field decomposition `strptime` performs around the `/` literals). -/
def splitOnChar (sep : Char) : List Char → List (List Char)
  | [] => [[]]
  | c :: rest =>
    let r := splitOnChar sep rest
    if c == sep then [] :: r
    else
      match r with
      | [] => [[c]]
      | h :: t => (c :: h) :: t

/-- Parse a nonempty all-digit char list as a number (the numeric-field
parse inside `strptime`). -/
def listToNat? (l : List Char) : Option Nat :=
  if l ≠ [] ∧ l.all Char.isDigit then
    some (l.foldl (fun acc c => acc * 10 + (c.toNat - 48)) 0)
  else none

/-- `datetime.strptime(s, "%d/%m/%Y")`: three `/`-separated numeric fields
forming a valid calendar date (year 1–9999). -/
def strptimeDMY (l : List Char) : Option DateDMY :=
  match splitOnChar '/' l with
  | [ds, ms, ys] =>
    match listToNat? ds, listToNat? ms, listToNat? ys with
    | some d, some m, some y =>
      if 1 ≤ m && m ≤ 12 && 1 ≤ d && d ≤ daysInMonth y m && 1 ≤ y && y ≤ 9999 then
        some ⟨d, m, y⟩
      else none
    | _, _, _ => none
  | _ => none

/-- `parse_relative_date` (src/agent.py:103-159): resolve `"mañana"` against
today's date in Lima, or parse and validate an explicit `DD/MM/YYYY` date
(rejecting past dates and weekday mismatches).
`today` is the current Lima date. Returns `(formatted_date, error_message)`. -/
def parse_relative_date (today : DateDMY) (date_input : Option String)
    (day_reference : Option String) : Option String × Option String :=
  match date_input with
  | none => (none, some "Por favor, proporciona la fecha de la cita.")
  | some s0 =>
    if s0.isEmpty then
      (none, some "Por favor, proporciona la fecha de la cita.")
    else
      let di := pyLowerStrip s0
      if containsSub "mañana".data di || containsSub "manana".data di then
        let tomorrow := nextDay today
        let expectedDay := weekday tomorrow
        let mismatch : Option String :=
          match day_reference with
          | some dr0 =>
            if dr0.isEmpty then none
            else
              let dr := String.mk (pyLowerStrip dr0)
              match daysMap dr with
              | some idx =>
                if idx ≠ expectedDay then
                  some ("Mañana es " ++ enDay expectedDay ++ ", no " ++ dr ++
                    ". Por favor, especifica una fecha válida.")
                else none
              | none => none
          | none => none
        match mismatch with
        | some err => (none, some err)
        | none => (some (fmtDMY tomorrow), none)
      else
        match strptimeDMY di with
        | none =>
          (none, some "No entendí la fecha. Por favor, usa el formato día/mes/año, como 05/08/2025, o di \x27mañana\x27.")
        | some pd =>
          if dateLt pd today then
            (none, some "La fecha no puede ser anterior a hoy. Por favor, especifica una fecha válida.")
          else
            let mismatch : Option String :=
              match day_reference with
              | some dr0 =>
                if dr0.isEmpty then none
                else
                  let dr := String.mk (pyLowerStrip dr0)
                  match daysMap dr with
                  | some idx =>
                    if idx ≠ weekday pd then
                      some ("La fecha " ++ String.mk di ++ " es un " ++ enDay (weekday pd) ++
                        ", no " ++ dr ++ ". Por favor, especifica una fecha válida.")
                    else none
                  | none => none
              | none => none
            match mismatch with
            | some err => (none, some err)
            | none => (some (fmtDMY pd), none)

/-! ## Backend calls -/

/-- `data.get("answer", ...).replace("**", "").replace("*", "").replace("📞", "").strip()`
(src/agent.py:312-313). -/
def clean_answer (s : String) : String :=
  String.mk (pyStrip (pyReplaceDel '📞' []
    (pyReplaceDel '*' [] (pyReplaceDel '*' ['*'] s.data))))

/-- Exceptions the `httpx` call can raise inside `perform_query` /
`perform_scheduling`. -/
inductive ToolFailure where
  | timeoutExc
  | httpStatusExc (code : Nat)
  | otherExc
deriving DecidableEq, Repr

/-- Outcome of the HTTP POST to the N8N webhook: a response with a status
code and the relevant JSON field of its body, or a raised exception. -/
inductive NetResult (α : Type) where
  | response (status : Nat) (body : α)
  | timeoutErr
  | unexpectedErr
deriving DecidableEq, Repr

/-- `response.raise_for_status()`: raises `HTTPStatusError` for 4xx/5xx. -/
def raise_for_status (status : Nat) : Except ToolFailure Unit :=
  if 400 ≤ status then .error (.httpStatusExc status) else .ok ()

/-- `perform_query` (src/agent.py:294-313): the RAG backend call.
`url` is `N8N_RAG_WEBHOOK_URL`; `net` gives the HTTP outcome, its body
abstracted to the optional `"answer"` field. -/
def perform_query (url : Option String) (net : NetResult (Option String)) :
    Except ToolFailure String :=
  match url with
  | none => .ok "Lo siento, hay un problema de configuración que me impide buscar la información."
  | some _ =>
    match net with
    | .timeoutErr => .error .timeoutExc
    | .unexpectedErr => .error .otherExc
    | .response status answerField =>
      match raise_for_status status with
      | .error e => .error e
      | .ok _ =>
        .ok (clean_answer (answerField.getD "No encontré una respuesta clara a tu consulta."))

/-- `perform_scheduling` (src/agent.py:497-523): the appointment backend
call. `net`'s body is abstracted to the optional `"status"` field. -/
def perform_scheduling (url : Option String) (name formattedDate time : String)
    (net : NetResult (Option String)) : Except ToolFailure String :=
  match url with
  | none => .ok "Lo siento, hay un problema de configuración que me impide agendar la cita."
  | some _ =>
    match net with
    | .timeoutErr => .error .timeoutExc
    | .unexpectedErr => .error .otherExc
    | .response status statusField =>
      match raise_for_status status with
      | .error e => .error e
      | .ok _ =>
        if statusField == some "success" then
          .ok ("¡Cita agendada exitosamente para " ++ name ++ " el " ++ formattedDate ++
            " a las " ++ time ++ "! Recibirás una confirmación pronto. ¿En qué más puedo ayudarte?")
        else
          .ok ("Lo siento, no se pudo agendar la cita para " ++ name ++
            ". ¿Podrías intentar con otra fecha u hora?")

/-! ## Coordinator state and events -/

/-- Status of the feedback (ticker) task held in
`consultation_state["feedback_task"]`. `cancelRequested` is the state right
after `task.cancel()` returns: `task.done()` is still `False` until the
cancellation is awaited. -/
inductive FStatus where
  | running
  | cancelRequested
  | done
deriving DecidableEq, Repr

/-- The global `consultation_state` dict (src/agent.py:44-53). The backend
task handle is an opaque id. -/
structure ConsultationState where
  is_active : Bool
  current_query : Option String
  operation_type : Option String
  start_time : Option Nat
  task : Option Nat
  feedback_task : Option FStatus
  feedback_sent : List String
  last_completed : Option Nat
deriving DecidableEq, Repr

/-- Observable actions a Submit call performs, in order. -/
inductive AgentEvent where
  | backendCallStarted
  | tickerStarted
  | tickerCancelRequested
  | tickerAwaited
  | sayUtterance (msg : String)
deriving DecidableEq, Repr

instance : BEq AgentEvent := ⟨fun a b => decide (a = b)⟩

/-- What `await consultation_state["task"]` yields for a late caller joining
the in-flight operation: the task's result, a re-raised exception of the
task's backend call (`httpx.TimeoutException`, `httpx.HTTPStatusError` or
any other `Exception` thrown inside `perform_query` /
`perform_scheduling`), or `CancelledError`. -/
inductive AwaitResult where
  | resolved (s : String)
  | raisedAwait (e : ToolFailure)
  | cancelledAwait
deriving DecidableEq, Repr

/-- Outcome of awaiting the freshly started backend task: it completed with
a network outcome, or the await raised `CancelledError`. -/
inductive AwaitOutcome where
  | completed (net : NetResult (Option String))
  | cancelled
deriving DecidableEq, Repr

instance {ε α : Type} [DecidableEq ε] [DecidableEq α] : DecidableEq (Except ε α)
  | Except.ok x, Except.ok y =>
    if h : x = y then Decidable.isTrue (by rw [h])
    else Decidable.isFalse (fun hc => h (Except.ok.inj hc))
  | Except.error x, Except.error y =>
    if h : x = y then Decidable.isTrue (by rw [h])
    else Decidable.isFalse (fun hc => h (Except.error.inj hc))
  | Except.ok _, Except.error _ => Decidable.isFalse (fun hc => nomatch hc)
  | Except.error _, Except.ok _ => Decidable.isFalse (fun hc => nomatch hc)

/-- Result of one Submit call: what reaches the dialogue layer — a returned
string (`Except.ok`) or a propagated, uncaught exception (`Except.error`) —
together with the final `consultation_state` and the trace of observable
actions. -/
structure SubmitResult where
  reply : Except ToolFailure String
  state : ConsultationState
  events : List AgentEvent
deriving DecidableEq, Repr

/-- The `finally` block shared by both tools (src/agent.py:339-359,
549-569): cancel and await the ticker if it is not done, then reset
`consultation_state` to idle with `last_completed` set to the current
time `tEnd`. Returns the reset state and the teardown events. -/
def teardown (tEnd : Nat) (st : ConsultationState) : ConsultationState × List AgentEvent :=
  let tickerEvs : List AgentEvent :=
    match st.feedback_task with
    | some s =>
      if s ≠ FStatus.done then [.tickerCancelRequested, .tickerAwaited] else []
    | none => []
  (⟨false, none, none, none, none, none, [], some tEnd⟩, tickerEvs)

/-- `task.cancel()` on the feedback task when it exists and is not done
(the supersession branch, src/agent.py:213-215, 417-419): request
cancellation without awaiting it. -/
def cancelFeedbackNoAwait (st : ConsultationState) : ConsultationState × List AgentEvent :=
  match st.feedback_task with
  | some s =>
    if s ≠ FStatus.done then
      ({ st with feedback_task := some FStatus.cancelRequested }, [.tickerCancelRequested])
    else (st, [])
  | none => (st, [])

/-- The fresh-operation path of `query_knowledge_base`
(src/agent.py:227-359): activate the state, start the ticker and the
backend task, await the backend task, map its outcome to a reply
(try/except), and run teardown (`finally`). `now` is the start timestamp,
`tEnd` the teardown timestamp, `evs0` the events already emitted before
this path was reached. -/
def query_fresh (now tEnd : Nat) (url : Option String) (question : String)
    (outcome : AwaitOutcome) (st : ConsultationState) (evs0 : List AgentEvent) :
    SubmitResult :=
  let st1 : ConsultationState :=
    { is_active := true, current_query := some question, operation_type := some "rag",
      start_time := some now, task := none, feedback_task := none,
      feedback_sent := [], last_completed := st.last_completed }
  let st2 := { st1 with feedback_task := some FStatus.running }
  let st3 := { st2 with task := some 0 }
  let reply : Except ToolFailure String := Except.ok
    (match outcome with
    | .cancelled => "He recibido tu nueva pregunta, déjame procesarla."
    | .completed net =>
      match perform_query url net with
      | .ok s => s
      | .error .timeoutExc =>
        "La consulta está tardando más de lo esperado. ¿Podrías repetir tu pregunta o ser más específico?"
      | .error (.httpStatusExc _) =>
        "No pude conectarme con el sistema de información en este momento. ¿Puedo ayudarte con algo más?"
      | .error .otherExc =>
        "Ocurrió un error al procesar tu solicitud. ¿Podrías intentar reformular tu pregunta?")
  let td := teardown tEnd st3
  { reply := reply, state := td.1,
    events := evs0 ++ [.tickerStarted, .backendCallStarted] ++ td.2 }

/-- `query_knowledge_base` (src/agent.py:199-361). If an operation is
active: cancel the previous ticker (without awaiting), overwrite the query
and type, and join the existing backend task under a `try` that catches
only `asyncio.CancelledError` — returning the task's result if it
resolves, re-raising (uncaught, no enclosing handler at this point) any
exception the joined task completed with, or falling through to a fresh
operation if it was cancelled or absent. Otherwise run a fresh operation.
`joinResult` is what awaiting the existing task yields (used only when one
exists). -/
def query_knowledge_base (now tEnd : Nat) (url : Option String) (question : String)
    (joinResult : AwaitResult) (outcome : AwaitOutcome) (st : ConsultationState) :
    SubmitResult :=
  if st.is_active then
    let c := cancelFeedbackNoAwait st
    let st2 := { c.1 with current_query := some question, operation_type := some "rag" }
    match st2.task with
    | some _ =>
      match joinResult with
      | .resolved s => { reply := Except.ok s, state := st2, events := c.2 }
      | .raisedAwait e => { reply := Except.error e, state := st2, events := c.2 }
      | .cancelledAwait => query_fresh now tEnd url question outcome st2 c.2
    | none => query_fresh now tEnd url question outcome st2 c.2
  else
    query_fresh now tEnd url question outcome st []

/-- Python truthiness of an optional string argument (`if not name:`). -/
def isFalsy (o : Option String) : Bool :=
  match o with
  | none => true
  | some s => s.isEmpty

/-- The fresh-operation path of `schedule_appointment`
(src/agent.py:431-571), analogous to `query_fresh` with the scheduling
message set and `operation_type = "appointment"`. -/
def schedule_fresh (now tEnd : Nat) (url : Option String)
    (name formattedDate time : String) (outcome : AwaitOutcome)
    (st : ConsultationState) (evs0 : List AgentEvent) : SubmitResult :=
  let q := "Agendar cita para " ++ name ++ " el " ++ formattedDate ++ " a las " ++ time
  let st1 : ConsultationState :=
    { is_active := true, current_query := some q, operation_type := some "appointment",
      start_time := some now, task := none, feedback_task := none,
      feedback_sent := [], last_completed := st.last_completed }
  let st2 := { st1 with feedback_task := some FStatus.running }
  let st3 := { st2 with task := some 0 }
  let reply : Except ToolFailure String := Except.ok
    (match outcome with
    | .cancelled => "He recibido una nueva solicitud, déjame procesarla."
    | .completed net =>
      match perform_scheduling url name formattedDate time net with
      | .ok s => s
      | .error .timeoutExc =>
        "El proceso de agendamiento está tomando más tiempo del esperado. ¿Podrías intentar de nuevo?"
      | .error (.httpStatusExc _) =>
        "No pude conectar con el sistema de agendamiento. ¿Puedo ayudarte con algo más?"
      | .error .otherExc =>
        "Ocurrió un error al agendar tu cita. ¿Podrías intentar de nuevo o especificar otra fecha?")
  let td := teardown tEnd st3
  { reply := reply, state := td.1,
    events := evs0 ++ [.tickerStarted, .backendCallStarted] ++ td.2 }

/-- `schedule_appointment` (src/agent.py:363-571): validate the phone, the
date, and required fields (each failure returns immediately with no
backend call), speak a confirmation, then run the same supersession /
fresh-operation logic as `query_knowledge_base` with the scheduling
strings. `today` is the current Lima date. -/
def schedule_appointment (today : DateDMY) (now tEnd : Nat) (url : Option String)
    (name phone date day_reference time reason : Option String)
    (joinResult : AwaitResult) (outcome : AwaitOutcome) (st : ConsultationState) :
    SubmitResult :=
  match normalize_phone phone with
  | (_, some phoneError) => { reply := Except.ok phoneError, state := st, events := [] }
  | (normalizedPhone, none) =>
    match parse_relative_date today date day_reference with
    | (_, some dateError) => { reply := Except.ok dateError, state := st, events := [] }
    | (formattedDate, none) =>
      let missing : List String :=
        (if isFalsy name then ["nombre completo"] else []) ++
        (if isFalsy normalizedPhone then ["número de celular"] else []) ++
        (if isFalsy formattedDate then ["fecha"] else []) ++
        (if isFalsy time then ["hora"] else [])
      if missing ≠ [] then
        { reply := Except.ok ("Por favor, proporciona los siguientes datos para agendar la cita: " ++
            String.intercalate ", " missing ++ "."),
          state := st, events := [] }
      else
        let nm := name.getD ""
        let fd := formattedDate.getD ""
        let tm := time.getD ""
        let confirmation :=
          "Entiendo, quieres una cita para " ++ nm ++ " el " ++ fd ++ " a las " ++ tm ++
            ". ¿Es correcto?"
        let evs0 : List AgentEvent := [.sayUtterance confirmation]
        if st.is_active then
          let c := cancelFeedbackNoAwait st
          let st2 := { c.1 with
            current_query := some ("Agendar cita para " ++ nm ++ " el " ++ fd ++ " a las " ++ tm),
            operation_type := some "appointment" }
          match st2.task with
          | some _ =>
            match joinResult with
            | .resolved s => { reply := Except.ok s, state := st2, events := evs0 ++ c.2 }
            | .raisedAwait e => { reply := Except.error e, state := st2, events := evs0 ++ c.2 }
            | .cancelledAwait => schedule_fresh now tEnd url nm fd tm outcome st2 (evs0 ++ c.2)
          | none => schedule_fresh now tEnd url nm fd tm outcome st2 (evs0 ++ c.2)
        else
          schedule_fresh now tEnd url nm fd tm outcome st evs0

/-! ## Progress feedback ticker -/

/-- The `initial_messages` pool of the RAG `controlled_feedback`
(src/agent.py:247-251). -/
def initial_messages_rag : List String :=
  ["Consultando la información, un momento por favor...",
   "Buscando los detalles para ti, espera un segundo...",
   "Procesando tu consulta, dame un momento..."]

/-- The `processing_messages` pool (src/agent.py:259-263). -/
def processing_messages_rag : List String :=
  ["Un momento más, estoy procesando tu consulta...",
   "Ya casi tengo la respuesta, espera un poco por favor...",
   "Seguimos buscando la información, gracias por esperar..."]

/-- The `patience_messages` pool (src/agent.py:271-275). -/
def patience_messages_rag : List String :=
  ["Aún estoy buscando la información, gracias por tu paciencia...",
   "La respuesta está en camino, te agradezco la espera...",
   "Seguimos procesando, un poco más y te respondo..."]

/-- `random.choice(msgs)` with the random draw `r` supplied as an oracle. -/
def pyChoice (msgs : List String) (r : Nat) : String :=
  msgs.getD (r % msgs.length) ""

/-- The `while consultation_state["is_active"]` patience loop of
`controlled_feedback` (src/agent.py:276-284). `T` is the instant the
operation completes (`is_active` turns false and the ticker is cancelled);
`now` is the elapsed time at the loop head; `rand k` is the random draw of
iteration `k`; `fuel` bounds the unrolling of the (otherwise endless)
loop. Each iteration sleeps 8 s and speaks only if still active. -/
def patience_loop (T : Nat) (rand : Nat → Nat) :
    Nat → Nat → Nat → List (String × String)
  | _, _, 0 => []
  | now, k, fuel + 1 =>
    if now < T then
      let t := now + 8
      if t < T then
        ("patience", pyChoice patience_messages_rag (rand k)) ::
          patience_loop T rand t (k + 1) fuel
      else
        patience_loop T rand t (k + 1) fuel
    else []

/-- `controlled_feedback` of `query_knowledge_base` (src/agent.py:239-291):
the `(stage, message)` pairs spoken (and appended to `feedback_sent`) by a
ticker for an operation that completes `T` seconds after it starts.
Sleep 3 s, speak an initial message if still active; sleep 6 more seconds
(elapsed 9 s), speak a processing message if still active; then the
patience loop every 8 s. -/
def controlled_feedback (T : Nat) (rand : Nat → Nat) (fuel : Nat) :
    List (String × String) :=
  (if 3 < T then [("initial", pyChoice initial_messages_rag (rand 0))] else []) ++
  (if 9 < T then [("processing", pyChoice processing_messages_rag (rand 1))] else []) ++
  patience_loop T rand 9 2 fuel

/-! ## Idle-silence monitor -/

/-- The per-session fields of `FixedConversationManager`
(src/agent.py:634-645) read and written by `_fixed_silence_monitor`. -/
structure MonitorState where
  last_user_activity : Nat
  last_agent_response : Option Nat
  silence_warnings : Nat
  max_silence_warnings : Nat
deriving DecidableEq, Repr

/-- `update_user_activity` (src/agent.py:663-667). -/
def update_user_activity (ms : MonitorState) (now : Nat) : MonitorState :=
  { ms with last_user_activity := now, silence_warnings := 0 }

/-- Python truthiness of `consultation_state.get("last_completed")`
(a float: 0.0 is falsy). -/
def lastCompletedTruthy (lc : Option Nat) : Bool :=
  match lc with
  | some t => t ≠ 0
  | none => false

/-- One poll iteration of `_fixed_silence_monitor` (src/agent.py:681-723),
after its 30 s sleep, at time `now`: returns whether the check-in
utterance was spoken and the updated monitor state. Skips while an
operation is active, and during the 45 s grace window after
`last_completed`; speaks once when silence reaches 60 s and the warning
budget is not exhausted (resetting `last_user_activity`); resets the
warning counter silently after 300 s of silence. -/
def monitor_tick (cs : ConsultationState) (ms : MonitorState) (now : Nat) :
    Bool × MonitorState :=
  if cs.is_active then (false, ms)
  else if lastCompletedTruthy cs.last_completed &&
      now - (cs.last_completed.getD 0) < 45 then (false, ms)
  else if 60 ≤ now - ms.last_user_activity &&
      ms.silence_warnings < ms.max_silence_warnings then
    (true, { ms with silence_warnings := ms.silence_warnings + 1,
                     last_agent_response := some now,
                     last_user_activity := now })
  else if 300 ≤ now - ms.last_user_activity then
    (false, { ms with silence_warnings := 0, last_user_activity := now })
  else (false, ms)

/-! ## Theorems -/

/-- Claim C6: the idle-silence monitor never speaks while an operation is
active, and never speaks within 45 seconds of `last_completed`; on every
poll tick satisfying either condition it skips without mutating the
monitor state (in particular the warning counter). -/
theorem claim_C6_idle_suppression :
    ∀ (cs : ConsultationState) (ms : MonitorState) (now : Nat),
      (cs.is_active = true → monitor_tick cs ms now = (false, ms)) ∧
      (∀ t, cs.last_completed = some t → now - t < 45 →
        monitor_tick cs ms now = (false, ms)) := by
  intro cs ms now
  constructor
  · intro h
    simp [monitor_tick, h]
  · intro t hlc h45
    unfold monitor_tick
    by_cases ha : cs.is_active
    · simp [ha]
    · rw [hlc]
      by_cases ht : t = 0
      · subst ht
        have h60 : ¬ (60 ≤ now - ms.last_user_activity) := by omega
        have h300 : ¬ (300 ≤ now - ms.last_user_activity) := by omega
        simp [ha, lastCompletedTruthy, h60, h300]
      · simp [ha, lastCompletedTruthy, ht, h45]

/-- Closed witness for C6: a tick during an active operation and a tick
34 seconds after a completion both skip without touching the state. -/
theorem claim_C6_idle_suppression_witness :
    monitor_tick ⟨true, some "q", some "rag", some 10, some 0, some FStatus.running, [], none⟩
      ⟨0, none, 0, 1⟩ 100 = (false, ⟨0, none, 0, 1⟩) ∧
    monitor_tick ⟨false, none, none, none, none, none, [], some 66⟩
      ⟨0, none, 0, 1⟩ 100 = (false, ⟨0, none, 0, 1⟩) :=
  ⟨(claim_C6_idle_suppression
      ⟨true, some "q", some "rag", some 10, some 0, some FStatus.running, [], none⟩
      ⟨0, none, 0, 1⟩ 100).1 rfl,
   (claim_C6_idle_suppression
      ⟨false, none, none, none, none, none, [], some 66⟩
      ⟨0, none, 0, 1⟩ 100).2 66 rfl (by decide)⟩

/-- Claim C7: when the monitor speaks a check-in, it increments the warning
counter, records the agent response, and resets `last_user_activity` to
`now`; it speaks only when silence has reached 60 seconds and the warning
budget is not exhausted (so after a check-in, with `max_silence_warnings =
1`, no further check-in occurs until the counter is reset); and
`update_user_activity` performs exactly that reset. -/
theorem claim_C7_idle_rearm :
    ∀ (cs : ConsultationState) (ms : MonitorState) (now : Nat),
      ((monitor_tick cs ms now).1 = true →
        (monitor_tick cs ms now).2.silence_warnings = ms.silence_warnings + 1 ∧
        (monitor_tick cs ms now).2.last_user_activity = now ∧
        (monitor_tick cs ms now).2.last_agent_response = some now ∧
        60 ≤ now - ms.last_user_activity ∧
        ms.silence_warnings < ms.max_silence_warnings) ∧
      (ms.max_silence_warnings ≤ ms.silence_warnings →
        (monitor_tick cs ms now).1 = false) ∧
      (now - ms.last_user_activity < 60 → (monitor_tick cs ms now).1 = false) ∧
      (∀ now2, (update_user_activity ms now2).silence_warnings = 0 ∧
        (update_user_activity ms now2).last_user_activity = now2) := by
  intro cs ms now
  refine ⟨?_, ?_, ?_, ?_⟩
  · unfold monitor_tick
    split_ifs with h1 h2 h3 h4 <;> intro hsp <;> simp_all
  · intro h
    unfold monitor_tick
    split_ifs with h1 h2 h3 h4
    · rfl
    · rfl
    · simp only [Bool.and_eq_true, decide_eq_true_eq] at h3
      exact absurd h3.2 (by omega)
    · rfl
    · rfl
  · intro h
    unfold monitor_tick
    split_ifs with h1 h2 h3 h4
    · rfl
    · rfl
    · simp only [Bool.and_eq_true, decide_eq_true_eq] at h3
      exact absurd h3.1 (by omega)
    · rfl
    · rfl
  · intro now2
    simp [update_user_activity]

/-- Closed witness for C7: a 100-second silence produces a check-in with
the counter incremented and the activity timestamp reset; once the single
warning has been sent, a later tick stays silent; a tick 30 seconds after
the reset also stays silent. -/
theorem claim_C7_idle_rearm_witness :
    ((monitor_tick ⟨false, none, none, none, none, none, [], none⟩ ⟨0, none, 0, 1⟩ 100).2.silence_warnings = 0 + 1 ∧
      (monitor_tick ⟨false, none, none, none, none, none, [], none⟩ ⟨0, none, 0, 1⟩ 100).2.last_user_activity = 100 ∧
      (monitor_tick ⟨false, none, none, none, none, none, [], none⟩ ⟨0, none, 0, 1⟩ 100).2.last_agent_response = some 100 ∧
      60 ≤ 100 - 0 ∧ 0 < 1) ∧
    (monitor_tick ⟨false, none, none, none, none, none, [], none⟩ ⟨100, some 100, 1, 1⟩ 200).1 = false ∧
    (monitor_tick ⟨false, none, none, none, none, none, [], none⟩ ⟨100, some 100, 0, 1⟩ 130).1 = false :=
  ⟨by
    have h := (claim_C7_idle_rearm ⟨false, none, none, none, none, none, [], none⟩
      ⟨0, none, 0, 1⟩ 100).1 (by decide)
    exact ⟨h.1, h.2.1, h.2.2.1, h.2.2.2.1, h.2.2.2.2⟩,
   (claim_C7_idle_rearm ⟨false, none, none, none, none, none, [], none⟩
      ⟨100, some 100, 1, 1⟩ 200).2.1 (by decide),
   (claim_C7_idle_rearm ⟨false, none, none, none, none, none, [], none⟩
      ⟨100, some 100, 0, 1⟩ 130).2.2.1 (by decide)⟩

/-- Claim C8: `"987654321"` normalizes to `"+51987654321"` with no error;
`"12345"` yields the 9-digit validation message, and `schedule_appointment`
given that phone returns the message with no backend call (and no other
observable action). -/
theorem claim_C8_phone_validation :
    normalize_phone (some "987654321") = (some "+51987654321", none) ∧
    normalize_phone (some "12345") =
      (none, some "El número de celular no es válido. Debe tener 9 dígitos, por ejemplo, +51987654321.") ∧
    (schedule_appointment ⟨12, 10, 2026⟩ 0 1 (some "url") (some "Juan") (some "12345")
        (some "25/12/2030") none (some "10:00") none (AwaitResult.resolved "r")
        (AwaitOutcome.completed (NetResult.response 200 (some "success")))
        ⟨false, none, none, none, none, none, [], none⟩).reply =
      Except.ok "El número de celular no es válido. Debe tener 9 dígitos, por ejemplo, +51987654321." ∧
    (schedule_appointment ⟨12, 10, 2026⟩ 0 1 (some "url") (some "Juan") (some "12345")
        (some "25/12/2030") none (some "10:00") none (AwaitResult.resolved "r")
        (AwaitOutcome.completed (NetResult.response 200 (some "success")))
        ⟨false, none, none, none, none, none, [], none⟩).events = [] := by
  refine ⟨by decide, by decide, ?_, ?_⟩ <;> decide

/-- Truthiness of a present optional string is emptiness of the string. -/
theorem isFalsy_some (s : String) : isFalsy (some s) = s.isEmpty := rfl

/-- Requesting cancellation of the feedback task does not touch the backend
task handle. -/
theorem cancelFeedback_task_eq (st : ConsultationState) :
    (cancelFeedbackNoAwait st).1.task = st.task := by
  unfold cancelFeedbackNoAwait
  cases st.feedback_task with
  | none => rfl
  | some f => by_cases h : f = FStatus.done <;> simp [h]

/-- Claim C1: a Submit call (either tool) issued while an operation is
active and whose join of the in-flight task resolves returns exactly the
joined result and starts no backend call, so the single in-flight backend
call stays the only one and the late caller still receives a result. -/
theorem claim_C1_single_flight :
    (∀ now tEnd url question s outcome (st : ConsultationState) tid,
      st.is_active = true → st.task = some tid →
      (query_knowledge_base now tEnd url question (AwaitResult.resolved s) outcome st).reply =
        Except.ok s ∧
      (query_knowledge_base now tEnd url question (AwaitResult.resolved s) outcome st).events.count
        AgentEvent.backendCallStarted = 0) ∧
    (∀ today now tEnd url name phone date day_reference time reason np fd s outcome
        (st : ConsultationState) tid,
      st.is_active = true → st.task = some tid →
      normalize_phone phone = (some np, none) →
      parse_relative_date today date day_reference = (some fd, none) →
      isFalsy name = false → isFalsy time = false →
      np.isEmpty = false → fd.isEmpty = false →
      (schedule_appointment today now tEnd url name phone date day_reference time reason
        (AwaitResult.resolved s) outcome st).reply = Except.ok s ∧
      (schedule_appointment today now tEnd url name phone date day_reference time reason
        (AwaitResult.resolved s) outcome st).events.count
        AgentEvent.backendCallStarted = 0) := by
  constructor
  · intro now tEnd url question s outcome st tid hA hT
    obtain ⟨ia, cq, ot, stt, tk, fb, fs, lc⟩ := st
    simp only [ConsultationState.is_active] at hA
    simp only [ConsultationState.task] at hT
    subst hA; subst hT
    cases fb with
    | none => simp [query_knowledge_base, cancelFeedbackNoAwait]
    | some f =>
      by_cases hf : f = FStatus.done <;>
        simp [query_knowledge_base, cancelFeedbackNoAwait, hf]
  · intro today now tEnd url name phone date day_reference time reason np fd s outcome
      st tid hA hT hph hpd hname htime hnp hfd
    obtain ⟨ia, cq, ot, stt, tk, fb, fs, lc⟩ := st
    simp only [ConsultationState.is_active] at hA
    simp only [ConsultationState.task] at hT
    subst hA; subst hT
    cases fb with
    | none =>
      simp [schedule_appointment, cancelFeedbackNoAwait, hph, hpd, hname, htime,
        isFalsy_some, hnp, hfd]
    | some f =>
      by_cases hf : f = FStatus.done <;>
        simp [schedule_appointment, cancelFeedbackNoAwait, hph, hpd, hname, htime,
          isFalsy_some, hnp, hfd, hf]

/-- Closed witness for C1: a late lookup call and a late scheduling call,
both joining an in-flight task that resolves to a concrete answer. -/
theorem claim_C1_single_flight_witness :
    ((query_knowledge_base 5 9 (some "u") "q1" (AwaitResult.resolved "RESP")
        (AwaitOutcome.completed NetResult.timeoutErr)
        ⟨true, some "q0", some "rag", some 0, some 0, some FStatus.running, [], none⟩).reply =
        Except.ok "RESP" ∧
      (query_knowledge_base 5 9 (some "u") "q1" (AwaitResult.resolved "RESP")
        (AwaitOutcome.completed NetResult.timeoutErr)
        ⟨true, some "q0", some "rag", some 0, some 0, some FStatus.running, [], none⟩).events.count
        AgentEvent.backendCallStarted = 0) ∧
    ((schedule_appointment ⟨12, 10, 2026⟩ 5 9 (some "u") (some "Ana") (some "987654321")
        (some "25/12/2030") none (some "09:00") none (AwaitResult.resolved "RESP2")
        (AwaitOutcome.completed NetResult.timeoutErr)
        ⟨true, some "q0", some "rag", some 0, some 0, some FStatus.running, [], none⟩).reply =
        Except.ok "RESP2" ∧
      (schedule_appointment ⟨12, 10, 2026⟩ 5 9 (some "u") (some "Ana") (some "987654321")
        (some "25/12/2030") none (some "09:00") none (AwaitResult.resolved "RESP2")
        (AwaitOutcome.completed NetResult.timeoutErr)
        ⟨true, some "q0", some "rag", some 0, some 0, some FStatus.running, [], none⟩).events.count
        AgentEvent.backendCallStarted = 0) :=
  ⟨claim_C1_single_flight.1 5 9 (some "u") "q1" "RESP"
      (AwaitOutcome.completed NetResult.timeoutErr)
      ⟨true, some "q0", some "rag", some 0, some 0, some FStatus.running, [], none⟩ 0
      rfl rfl,
   claim_C1_single_flight.2 ⟨12, 10, 2026⟩ 5 9 (some "u") (some "Ana") (some "987654321")
      (some "25/12/2030") none (some "09:00") none "+51987654321" "25/12/2030" "RESP2"
      (AwaitOutcome.completed NetResult.timeoutErr)
      ⟨true, some "q0", some "rag", some 0, some 0, some FStatus.running, [], none⟩ 0
      rfl rfl (by decide) (by decide) (by decide) (by decide) (by decide) (by decide)⟩

/-- Counterexample to claim C2 as stated: a concrete superseding
`query_knowledge_base` call with a running feedback task requests its
cancellation but returns without ever awaiting it — the whole event trace
is the bare cancellation request, and the previous Ticker is still in the
cancel-requested (not finished) state when the call returns. -/
theorem claim_C2_counterexample :
    (query_knowledge_base 200 210 (some "u") "q1" (AwaitResult.resolved "R")
        (AwaitOutcome.completed (NetResult.response 200 none))
        ⟨true, some "q0", some "rag", some 100, some 0, some FStatus.running, [], none⟩).events =
      [AgentEvent.tickerCancelRequested] ∧
    ¬ (AgentEvent.tickerAwaited ∈
      (query_knowledge_base 200 210 (some "u") "q1" (AwaitResult.resolved "R")
        (AwaitOutcome.completed (NetResult.response 200 none))
        ⟨true, some "q0", some "rag", some 100, some 0, some FStatus.running, [], none⟩).events) ∧
    (query_knowledge_base 200 210 (some "u") "q1" (AwaitResult.resolved "R")
        (AwaitOutcome.completed (NetResult.response 200 none))
        ⟨true, some "q0", some "rag", some 100, some 0, some FStatus.running, [], none⟩).state.feedback_task =
      some FStatus.cancelRequested := by
  refine ⟨by decide, by decide, by decide⟩

/-- Claim C2 as amended: a superseding Submit call only requests
cancellation of the running previous Ticker (`task.cancel()`,
fire-and-forget) and starts no Ticker of its own; the cancellation is not
awaited by the superseding call, so at its return the previous Ticker is
in the cancel-requested state. (The await happens later, in the owning
call's teardown.) -/
theorem claim_C2_supersession_cancel_not_awaited :
    (∀ now tEnd url question s outcome (st : ConsultationState) tid f,
      st.is_active = true → st.task = some tid →
      st.feedback_task = some f → f ≠ FStatus.done →
      (query_knowledge_base now tEnd url question (AwaitResult.resolved s) outcome st).events =
        [AgentEvent.tickerCancelRequested] ∧
      (query_knowledge_base now tEnd url question (AwaitResult.resolved s) outcome st).state.feedback_task =
        some FStatus.cancelRequested) ∧
    (∀ today now tEnd url name phone date day_reference time reason np fd s outcome
        (st : ConsultationState) tid f,
      st.is_active = true → st.task = some tid →
      st.feedback_task = some f → f ≠ FStatus.done →
      normalize_phone phone = (some np, none) →
      parse_relative_date today date day_reference = (some fd, none) →
      isFalsy name = false → isFalsy time = false →
      np.isEmpty = false → fd.isEmpty = false →
      (schedule_appointment today now tEnd url name phone date day_reference time reason
        (AwaitResult.resolved s) outcome st).events.count AgentEvent.tickerAwaited = 0 ∧
      (schedule_appointment today now tEnd url name phone date day_reference time reason
        (AwaitResult.resolved s) outcome st).events.count AgentEvent.tickerStarted = 0 ∧
      (schedule_appointment today now tEnd url name phone date day_reference time reason
        (AwaitResult.resolved s) outcome st).events.count AgentEvent.tickerCancelRequested = 1 ∧
      (schedule_appointment today now tEnd url name phone date day_reference time reason
        (AwaitResult.resolved s) outcome st).state.feedback_task =
        some FStatus.cancelRequested) := by
  constructor
  · intro now tEnd url question s outcome st tid f hA hT hF hfd
    obtain ⟨ia, cq, ot, stt, tk, fb, fs, lc⟩ := st
    simp only [ConsultationState.is_active] at hA
    simp only [ConsultationState.task] at hT
    simp only [ConsultationState.feedback_task] at hF
    subst hA; subst hT; subst hF
    simp [query_knowledge_base, cancelFeedbackNoAwait, hfd]
  · intro today now tEnd url name phone date day_reference time reason np fd s outcome
      st tid f hA hT hF hfdone hph hpd hname htime hnp hfd
    obtain ⟨ia, cq, ot, stt, tk, fb, fs, lc⟩ := st
    simp only [ConsultationState.is_active] at hA
    simp only [ConsultationState.task] at hT
    simp only [ConsultationState.feedback_task] at hF
    subst hA; subst hT; subst hF
    simp [schedule_appointment, cancelFeedbackNoAwait, hph, hpd, hname, htime,
      isFalsy_some, hnp, hfd, hfdone]

/-- Closed witness for the amended C2. -/
theorem claim_C2_supersession_cancel_not_awaited_witness :
    ((query_knowledge_base 5 9 (some "u") "q1" (AwaitResult.resolved "R")
        AwaitOutcome.cancelled
        ⟨true, some "q0", some "rag", some 0, some 0, some FStatus.running, [], none⟩).events =
      [AgentEvent.tickerCancelRequested] ∧
      (query_knowledge_base 5 9 (some "u") "q1" (AwaitResult.resolved "R")
        AwaitOutcome.cancelled
        ⟨true, some "q0", some "rag", some 0, some 0, some FStatus.running, [], none⟩).state.feedback_task =
      some FStatus.cancelRequested) ∧
    (schedule_appointment ⟨12, 10, 2026⟩ 5 9 (some "u") (some "Ana") (some "987654321")
        (some "25/12/2030") none (some "09:00") none (AwaitResult.resolved "R2")
        AwaitOutcome.cancelled
        ⟨true, some "q0", some "rag", some 0, some 0, some FStatus.running, [], none⟩).events.count
      AgentEvent.tickerAwaited = 0 :=
  ⟨claim_C2_supersession_cancel_not_awaited.1 5 9 (some "u") "q1" "R"
      AwaitOutcome.cancelled
      ⟨true, some "q0", some "rag", some 0, some 0, some FStatus.running, [], none⟩ 0
      FStatus.running rfl rfl rfl (by decide),
   (claim_C2_supersession_cancel_not_awaited.2 ⟨12, 10, 2026⟩ 5 9 (some "u") (some "Ana")
      (some "987654321") (some "25/12/2030") none (some "09:00") none "+51987654321"
      "25/12/2030" "R2" AwaitOutcome.cancelled
      ⟨true, some "q0", some "rag", some 0, some 0, some FStatus.running, [], none⟩ 0
      FStatus.running rfl rfl rfl (by decide) (by decide) (by decide) (by decide) (by decide)
      (by decide) (by decide)).1⟩

/-- Claim C3: for every fresh operation, whatever the backend outcome
(success, cancellation, timeout, HTTP error, unexpected exception, or
missing configuration), teardown runs before Submit returns: the Ticker is
cancelled and awaited, and the state is reset to idle with `last_completed`
set to the teardown time. -/
theorem claim_C3_teardown_always_runs :
    (∀ now tEnd url question jr outcome (st : ConsultationState),
      st.is_active = false →
      (query_knowledge_base now tEnd url question jr outcome st).state =
        ⟨false, none, none, none, none, none, [], some tEnd⟩ ∧
      AgentEvent.tickerCancelRequested ∈
        (query_knowledge_base now tEnd url question jr outcome st).events ∧
      AgentEvent.tickerAwaited ∈
        (query_knowledge_base now tEnd url question jr outcome st).events) ∧
    (∀ today now tEnd url name phone date day_reference time reason np fd jr outcome
        (st : ConsultationState),
      st.is_active = false →
      normalize_phone phone = (some np, none) →
      parse_relative_date today date day_reference = (some fd, none) →
      isFalsy name = false → isFalsy time = false →
      np.isEmpty = false → fd.isEmpty = false →
      (schedule_appointment today now tEnd url name phone date day_reference time reason
        jr outcome st).state = ⟨false, none, none, none, none, none, [], some tEnd⟩ ∧
      AgentEvent.tickerCancelRequested ∈
        (schedule_appointment today now tEnd url name phone date day_reference time reason
          jr outcome st).events ∧
      AgentEvent.tickerAwaited ∈
        (schedule_appointment today now tEnd url name phone date day_reference time reason
          jr outcome st).events) := by
  constructor
  · intro now tEnd url question jr outcome st hA
    simp [query_knowledge_base, hA, query_fresh, teardown]
  · intro today now tEnd url name phone date day_reference time reason np fd jr outcome
      st hA hph hpd hname htime hnp hfd
    simp [schedule_appointment, hA, hph, hpd, hname, htime, isFalsy_some, hnp, hfd,
      schedule_fresh, teardown]

/-- Closed witness for C3: teardown runs for a timed-out lookup and for a
cancelled scheduling operation. -/
theorem claim_C3_teardown_always_runs_witness :
    (query_knowledge_base 0 7 (some "u") "q"
        (AwaitResult.resolved "r") (AwaitOutcome.completed NetResult.timeoutErr)
        ⟨false, none, none, none, none, none, [], some 3⟩).state =
      ⟨false, none, none, none, none, none, [], some 7⟩ ∧
    (schedule_appointment ⟨12, 10, 2026⟩ 0 7 (some "u") (some "Ana") (some "987654321")
        (some "25/12/2030") none (some "09:00") none (AwaitResult.resolved "r")
        AwaitOutcome.cancelled
        ⟨false, none, none, none, none, none, [], some 3⟩).state =
      ⟨false, none, none, none, none, none, [], some 7⟩ :=
  ⟨(claim_C3_teardown_always_runs.1 0 7 (some "u") "q" (AwaitResult.resolved "r")
      (AwaitOutcome.completed NetResult.timeoutErr)
      ⟨false, none, none, none, none, none, [], some 3⟩ rfl).1,
   (claim_C3_teardown_always_runs.2 ⟨12, 10, 2026⟩ 0 7 (some "u") (some "Ana")
      (some "987654321") (some "25/12/2030") none (some "09:00") none "+51987654321"
      "25/12/2030" (AwaitResult.resolved "r") AwaitOutcome.cancelled
      ⟨false, none, none, none, none, none, [], some 3⟩ rfl (by decide) (by decide)
      (by decide) (by decide) (by decide) (by decide)).1⟩

/-- Counterexample to claim C5 as stated: a concrete Submit call of each
tool, issued while an operation is active, joins the in-flight task; the
joined task completed with a backend timeout exception, and since the
supersession branch catches only `CancelledError`
(src/agent.py:220-225, 424-429), the exception propagates out of Submit to
the dialogue layer (`Except.error`) instead of being converted to an
utterance. -/
theorem claim_C5_counterexample :
    (query_knowledge_base 200 210 (some "u") "q1"
        (AwaitResult.raisedAwait ToolFailure.timeoutExc)
        (AwaitOutcome.completed (NetResult.response 200 none))
        ⟨true, some "q0", some "rag", some 100, some 0, some FStatus.running, [], none⟩).reply =
      Except.error ToolFailure.timeoutExc ∧
    (schedule_appointment ⟨12, 10, 2026⟩ 200 210 (some "u") (some "Ana") (some "987654321")
        (some "25/12/2030") none (some "09:00") none
        (AwaitResult.raisedAwait (ToolFailure.httpStatusExc 500))
        (AwaitOutcome.completed (NetResult.response 200 none))
        ⟨true, some "q0", some "rag", some 100, some 0, some FStatus.running, [], none⟩).reply =
      Except.error (ToolFailure.httpStatusExc 500) := by
  refine ⟨by decide, by decide⟩

/-- Claim C5 as amended: every backend failure inside a fresh Submit
operation is caught at the Coordinator boundary and converted to a
returned utterance — distinct fixed strings for missing configuration,
timeout, HTTP status error, unexpected exception, and cancellation — for
both tools; but a Submit call that joins an in-flight operation catches
only cancellation, so when the joined task completed with a backend
exception, that exception propagates out of Submit to the dialogue
layer. -/
theorem claim_C5_failure_utterances_amended :
    (∀ now tEnd question jr (st : ConsultationState), st.is_active = false →
      (∀ url, (query_knowledge_base now tEnd url question jr AwaitOutcome.cancelled st).reply =
        Except.ok "He recibido tu nueva pregunta, déjame procesarla.") ∧
      (∀ u, (query_knowledge_base now tEnd (some u) question jr
        (AwaitOutcome.completed NetResult.timeoutErr) st).reply =
        Except.ok "La consulta está tardando más de lo esperado. ¿Podrías repetir tu pregunta o ser más específico?") ∧
      (∀ u status body, 400 ≤ status →
        (query_knowledge_base now tEnd (some u) question jr
          (AwaitOutcome.completed (NetResult.response status body)) st).reply =
        Except.ok "No pude conectarme con el sistema de información en este momento. ¿Puedo ayudarte con algo más?") ∧
      (∀ u, (query_knowledge_base now tEnd (some u) question jr
        (AwaitOutcome.completed NetResult.unexpectedErr) st).reply =
        Except.ok "Ocurrió un error al procesar tu solicitud. ¿Podrías intentar reformular tu pregunta?") ∧
      (∀ net, (query_knowledge_base now tEnd none question jr
        (AwaitOutcome.completed net) st).reply =
        Except.ok "Lo siento, hay un problema de configuración que me impide buscar la información.")) ∧
    (["He recibido tu nueva pregunta, déjame procesarla.",
      "La consulta está tardando más de lo esperado. ¿Podrías repetir tu pregunta o ser más específico?",
      "No pude conectarme con el sistema de información en este momento. ¿Puedo ayudarte con algo más?",
      "Ocurrió un error al procesar tu solicitud. ¿Podrías intentar reformular tu pregunta?",
      "Lo siento, hay un problema de configuración que me impide buscar la información."] :
      List String).Nodup ∧
    (∀ today now tEnd name phone date day_reference time reason np fd jr
        (st : ConsultationState), st.is_active = false →
      normalize_phone phone = (some np, none) →
      parse_relative_date today date day_reference = (some fd, none) →
      isFalsy name = false → isFalsy time = false →
      np.isEmpty = false → fd.isEmpty = false →
      (∀ url, (schedule_appointment today now tEnd url name phone date day_reference time
        reason jr AwaitOutcome.cancelled st).reply =
        Except.ok "He recibido una nueva solicitud, déjame procesarla.") ∧
      (∀ u, (schedule_appointment today now tEnd (some u) name phone date day_reference time
        reason jr (AwaitOutcome.completed NetResult.timeoutErr) st).reply =
        Except.ok "El proceso de agendamiento está tomando más tiempo del esperado. ¿Podrías intentar de nuevo?") ∧
      (∀ u status body, 400 ≤ status →
        (schedule_appointment today now tEnd (some u) name phone date day_reference time
          reason jr (AwaitOutcome.completed (NetResult.response status body)) st).reply =
        Except.ok "No pude conectar con el sistema de agendamiento. ¿Puedo ayudarte con algo más?") ∧
      (∀ u, (schedule_appointment today now tEnd (some u) name phone date day_reference time
        reason jr (AwaitOutcome.completed NetResult.unexpectedErr) st).reply =
        Except.ok "Ocurrió un error al agendar tu cita. ¿Podrías intentar de nuevo o especificar otra fecha?") ∧
      (∀ net, (schedule_appointment today now tEnd none name phone date day_reference time
        reason jr (AwaitOutcome.completed net) st).reply =
        Except.ok "Lo siento, hay un problema de configuración que me impide agendar la cita.")) ∧
    (["He recibido una nueva solicitud, déjame procesarla.",
      "El proceso de agendamiento está tomando más tiempo del esperado. ¿Podrías intentar de nuevo?",
      "No pude conectar con el sistema de agendamiento. ¿Puedo ayudarte con algo más?",
      "Ocurrió un error al agendar tu cita. ¿Podrías intentar de nuevo o especificar otra fecha?",
      "Lo siento, hay un problema de configuración que me impide agendar la cita."] :
      List String).Nodup ∧
    (∀ now tEnd url question e outcome (st : ConsultationState) tid,
      st.is_active = true → st.task = some tid →
      (query_knowledge_base now tEnd url question (AwaitResult.raisedAwait e) outcome st).reply =
        Except.error e) ∧
    (∀ today now tEnd url name phone date day_reference time reason np fd e outcome
        (st : ConsultationState) tid,
      st.is_active = true → st.task = some tid →
      normalize_phone phone = (some np, none) →
      parse_relative_date today date day_reference = (some fd, none) →
      isFalsy name = false → isFalsy time = false →
      np.isEmpty = false → fd.isEmpty = false →
      (schedule_appointment today now tEnd url name phone date day_reference time reason
        (AwaitResult.raisedAwait e) outcome st).reply = Except.error e) := by
  refine ⟨?_, by decide, ?_, by decide, ?_, ?_⟩
  · intro now tEnd question jr st hA
    refine ⟨?_, ?_, ?_, ?_, ?_⟩
    · intro url
      simp [query_knowledge_base, hA, query_fresh]
    · intro u
      simp [query_knowledge_base, hA, query_fresh, perform_query]
    · intro u status body hst
      simp [query_knowledge_base, hA, query_fresh, perform_query, raise_for_status, hst]
    · intro u
      simp [query_knowledge_base, hA, query_fresh, perform_query]
    · intro net
      simp [query_knowledge_base, hA, query_fresh, perform_query]
  · intro today now tEnd name phone date day_reference time reason np fd jr st hA
      hph hpd hname htime hnp hfd
    refine ⟨?_, ?_, ?_, ?_, ?_⟩
    · intro url
      simp [schedule_appointment, hA, hph, hpd, hname, htime, isFalsy_some, hnp, hfd,
        schedule_fresh]
    · intro u
      simp [schedule_appointment, hA, hph, hpd, hname, htime, isFalsy_some, hnp, hfd,
        schedule_fresh, perform_scheduling]
    · intro u status body hst
      simp [schedule_appointment, hA, hph, hpd, hname, htime, isFalsy_some, hnp, hfd,
        schedule_fresh, perform_scheduling, raise_for_status, hst]
    · intro u
      simp [schedule_appointment, hA, hph, hpd, hname, htime, isFalsy_some, hnp, hfd,
        schedule_fresh, perform_scheduling]
    · intro net
      simp [schedule_appointment, hA, hph, hpd, hname, htime, isFalsy_some, hnp, hfd,
        schedule_fresh, perform_scheduling]
  · intro now tEnd url question e outcome st tid hA hT
    obtain ⟨ia, cq, ot, stt, tk, fb, fs, lc⟩ := st
    simp only [ConsultationState.is_active] at hA
    simp only [ConsultationState.task] at hT
    subst hA; subst hT
    cases fb with
    | none => simp [query_knowledge_base, cancelFeedbackNoAwait]
    | some f =>
      by_cases hf : f = FStatus.done <;>
        simp [query_knowledge_base, cancelFeedbackNoAwait, hf]
  · intro today now tEnd url name phone date day_reference time reason np fd e outcome
      st tid hA hT hph hpd hname htime hnp hfd
    obtain ⟨ia, cq, ot, stt, tk, fb, fs, lc⟩ := st
    simp only [ConsultationState.is_active] at hA
    simp only [ConsultationState.task] at hT
    subst hA; subst hT
    cases fb with
    | none =>
      simp [schedule_appointment, cancelFeedbackNoAwait, hph, hpd, hname, htime,
        isFalsy_some, hnp, hfd]
    | some f =>
      by_cases hf : f = FStatus.done <;>
        simp [schedule_appointment, cancelFeedbackNoAwait, hph, hpd, hname, htime,
          isFalsy_some, hnp, hfd, hf]

/-- Closed witness for the amended C5: a timed-out fresh lookup and a
500-status fresh scheduling call produce their fixed utterances, while a
late scheduling call joining a task that completed with an unexpected
exception re-raises it. -/
theorem claim_C5_failure_utterances_amended_witness :
    (query_knowledge_base 0 1 (some "u") "q" (AwaitResult.resolved "r")
        (AwaitOutcome.completed NetResult.timeoutErr)
        ⟨false, none, none, none, none, none, [], none⟩).reply =
      Except.ok "La consulta está tardando más de lo esperado. ¿Podrías repetir tu pregunta o ser más específico?" ∧
    (schedule_appointment ⟨12, 10, 2026⟩ 0 1 (some "u") (some "Ana") (some "987654321")
        (some "25/12/2030") none (some "09:00") none (AwaitResult.resolved "r")
        (AwaitOutcome.completed (NetResult.response 500 none))
        ⟨false, none, none, none, none, none, [], none⟩).reply =
      Except.ok "No pude conectar con el sistema de agendamiento. ¿Puedo ayudarte con algo más?" ∧
    (schedule_appointment ⟨12, 10, 2026⟩ 5 9 (some "u") (some "Ana") (some "987654321")
        (some "25/12/2030") none (some "09:00") none
        (AwaitResult.raisedAwait ToolFailure.otherExc)
        (AwaitOutcome.completed (NetResult.response 200 none))
        ⟨true, some "q0", some "rag", some 0, some 0, some FStatus.running, [], none⟩).reply =
      Except.error ToolFailure.otherExc :=
  ⟨(claim_C5_failure_utterances_amended.1 0 1 "q" (AwaitResult.resolved "r")
      ⟨false, none, none, none, none, none, [], none⟩ rfl).2.1 "u",
   ((claim_C5_failure_utterances_amended.2.2.1 ⟨12, 10, 2026⟩ 0 1 (some "Ana")
      (some "987654321") (some "25/12/2030") none (some "09:00") none "+51987654321"
      "25/12/2030" (AwaitResult.resolved "r") ⟨false, none, none, none, none, none, [], none⟩
      rfl (by decide) (by decide) (by decide) (by decide) (by decide) (by decide)).2.2.1 "u"
      500 none (by omega)),
   claim_C5_failure_utterances_amended.2.2.2.2.2 ⟨12, 10, 2026⟩ 5 9 (some "u") (some "Ana")
      (some "987654321") (some "25/12/2030") none (some "09:00") none "+51987654321"
      "25/12/2030" ToolFailure.otherExc
      (AwaitOutcome.completed (NetResult.response 200 none))
      ⟨true, some "q0", some "rag", some 0, some 0, some FStatus.running, [], none⟩ 0
      rfl rfl (by decide) (by decide) (by decide) (by decide) (by decide) (by decide)⟩

/-- Once the operation has completed, the patience loop emits nothing. -/
theorem patience_loop_of_le (T : Nat) (rand : Nat → Nat) (now k fuel : Nat)
    (h : T ≤ now) : patience_loop T rand now k fuel = [] := by
  cases fuel with
  | zero => rfl
  | succ n => simp [patience_loop, Nat.not_lt.mpr h]

/-- Every entry of the patience loop is a `"patience"` stage. -/
theorem patience_loop_stages (T : Nat) (rand : Nat → Nat) :
    ∀ fuel now k x, x ∈ patience_loop T rand now k fuel → x.1 = "patience" := by
  intro fuel
  induction fuel with
  | zero =>
    intro now k x hx
    simp [patience_loop] at hx
  | succ n ih =>
    intro now k x hx
    by_cases h1 : now < T
    · by_cases h2 : now + 8 < T
      · simp only [patience_loop, if_pos h1, if_pos h2, List.mem_cons] at hx
        rcases hx with rfl | hx
        · rfl
        · exact ih _ _ _ hx
      · simp only [patience_loop, if_pos h1, if_neg h2] at hx
        exact ih _ _ _ hx
    · simp only [patience_loop, if_neg h1, List.not_mem_nil] at hx

/-- The patience loop entered at elapsed time `now` speaks one utterance
per loop iteration `j` whose wake-up time `now + 8 * (j + 1)` precedes the
operation's completion time `T`. -/
theorem patience_loop_length (T : Nat) (rand : Nat → Nat) :
    ∀ fuel now k, (patience_loop T rand now k fuel).length =
      (List.range fuel).countP (fun j => decide (now + 8 * (j + 1) < T)) := by
  intro fuel
  induction fuel with
  | zero => intro now k; rfl
  | succ n ih =>
    intro now k
    by_cases h1 : now < T
    · have hmap : ((fun j => decide (now + 8 * (j + 1) < T)) ∘ Nat.succ) =
          fun j => decide (now + 8 + 8 * (j + 1) < T) := by
        funext j
        simp only [Function.comp]
        rw [decide_eq_decide]
        omega
      by_cases h2 : now + 8 < T
      · simp only [patience_loop, if_pos h1, if_pos h2, List.length_cons]
        rw [ih (now + 8) (k + 1), List.range_succ_eq_map, List.countP_cons,
          List.countP_map, hmap]
        simp [h2]
      · simp only [patience_loop, if_pos h1, if_neg h2]
        rw [ih (now + 8) (k + 1), List.range_succ_eq_map, List.countP_cons,
          List.countP_map, hmap]
        simp [h2]
    · rw [patience_loop_of_le T rand now k (n + 1) (Nat.le_of_not_lt h1)]
      symm
      simp only [List.length_nil]
      rw [List.countP_eq_zero]
      intro j hj
      simp only [decide_eq_true_eq]
      omega

/-- A random choice from a three-element pool is in the pool. -/
theorem pyChoice_mem_three (a b c : String) (r : Nat) :
    pyChoice [a, b, c] r ∈ [a, b, c] := by
  have h3 : r % 3 < 3 := Nat.mod_lt _ (by omega)
  unfold pyChoice
  rcases e : r % 3 with _ | _ | _ | k <;> simp [e, List.getD] <;> omega

/-- Claim C4: the ticker speaks one initial-pool utterance 3 s after start,
one processing-pool utterance at 9 s, and then one patience-pool utterance
every 8 s, each only if the operation is still active when the wait
elapses; for a backend call resolving after 10 s this is exactly one
initial and one processing utterance and no patience utterance. -/
theorem claim_C4_ticker_schedule :
    (∀ (rand : Nat → Nat) (fuel : Nat), controlled_feedback 10 rand fuel =
      [("initial", pyChoice initial_messages_rag (rand 0)),
       ("processing", pyChoice processing_messages_rag (rand 1))]) ∧
    (∀ r, pyChoice initial_messages_rag r ∈ initial_messages_rag) ∧
    (∀ r, pyChoice processing_messages_rag r ∈ processing_messages_rag) ∧
    (∀ r, pyChoice patience_messages_rag r ∈ patience_messages_rag) ∧
    (∀ (T : Nat) (rand : Nat → Nat) (fuel : Nat),
      ((controlled_feedback T rand fuel).countP (fun e => e.1 == "initial") =
        if 3 < T then 1 else 0) ∧
      ((controlled_feedback T rand fuel).countP (fun e => e.1 == "processing") =
        if 9 < T then 1 else 0) ∧
      ((controlled_feedback T rand fuel).countP (fun e => e.1 == "patience") =
        (List.range fuel).countP (fun j => decide (9 + 8 * (j + 1) < T)))) := by
  refine ⟨?_, ?_, ?_, ?_, ?_⟩
  · intro rand fuel
    cases fuel with
    | zero => simp [controlled_feedback, patience_loop]
    | succ n =>
      rw [controlled_feedback]
      rw [show patience_loop 10 rand 9 2 (n + 1) =
        patience_loop 10 rand 17 3 n by simp [patience_loop]]
      rw [patience_loop_of_le 10 rand 17 3 n (by omega)]
      simp
  · intro r
    simp only [initial_messages_rag]
    exact pyChoice_mem_three _ _ _ r
  · intro r
    simp only [processing_messages_rag]
    exact pyChoice_mem_three _ _ _ r
  · intro r
    simp only [patience_messages_rag]
    exact pyChoice_mem_three _ _ _ r
  · intro T rand fuel
    have hpat : ∀ (s : String), s ≠ "patience" →
        (patience_loop T rand 9 2 fuel).countP (fun e => e.1 == s) = 0 := by
      intro s hs
      rw [List.countP_eq_zero]
      intro x hx
      rw [patience_loop_stages T rand fuel 9 2 x hx]
      simp
      exact fun h => hs h.symm
    refine ⟨?_, ?_, ?_⟩
    · rw [controlled_feedback, List.countP_append, List.countP_append,
        hpat "initial" (by decide)]
      split_ifs <;> simp
    · rw [controlled_feedback, List.countP_append, List.countP_append,
        hpat "processing" (by decide)]
      split_ifs <;> simp
    · rw [controlled_feedback, List.countP_append, List.countP_append]
      have hfull : (patience_loop T rand 9 2 fuel).countP (fun e => e.1 == "patience") =
          (patience_loop T rand 9 2 fuel).length := by
        rw [List.countP_eq_length]
        intro x hx
        rw [patience_loop_stages T rand fuel 9 2 x hx]
        simp
      rw [hfull, patience_loop_length T rand fuel 9 2]
      split_ifs <;> simp

/-- Claim C9: an explicit `DD/MM/YYYY` date strictly before today (Lima)
is rejected by `parse_relative_date` with the fixed past-date message, and
`schedule_appointment` returns that message with no backend call and no
other observable action — a rejection rule the spec does not state. -/
theorem claim_C9_past_date_rejected :
    (∀ (today pd : DateDMY) (s : String) (day_reference : Option String),
      s.isEmpty = false →
      containsSub "mañana".data (pyLowerStrip s) = false →
      containsSub "manana".data (pyLowerStrip s) = false →
      strptimeDMY (pyLowerStrip s) = some pd →
      dateLt pd today = true →
      parse_relative_date today (some s) day_reference =
        (none, some "La fecha no puede ser anterior a hoy. Por favor, especifica una fecha válida.")) ∧
    (∀ (today pd : DateDMY) (s : String) (day_reference : Option String)
        now tEnd url name phone np time reason jr outcome (st : ConsultationState),
      s.isEmpty = false →
      containsSub "mañana".data (pyLowerStrip s) = false →
      containsSub "manana".data (pyLowerStrip s) = false →
      strptimeDMY (pyLowerStrip s) = some pd →
      dateLt pd today = true →
      normalize_phone phone = (some np, none) →
      (schedule_appointment today now tEnd url name phone (some s) day_reference time reason
        jr outcome st).reply =
        Except.ok "La fecha no puede ser anterior a hoy. Por favor, especifica una fecha válida." ∧
      (schedule_appointment today now tEnd url name phone (some s) day_reference time reason
        jr outcome st).events = []) := by
  have key : ∀ (today pd : DateDMY) (s : String) (day_reference : Option String),
      s.isEmpty = false →
      containsSub "mañana".data (pyLowerStrip s) = false →
      containsSub "manana".data (pyLowerStrip s) = false →
      strptimeDMY (pyLowerStrip s) = some pd →
      dateLt pd today = true →
      parse_relative_date today (some s) day_reference =
        (none, some "La fecha no puede ser anterior a hoy. Por favor, especifica una fecha válida.") := by
    intro today pd s day_reference hne hm1 hm2 hsp hlt
    simp [parse_relative_date, hne, hm1, hm2, hsp, hlt]
  refine ⟨key, ?_⟩
  intro today pd s day_reference now tEnd url name phone np time reason jr outcome st
    hne hm1 hm2 hsp hlt hph
  have hp := key today pd s day_reference hne hm1 hm2 hsp hlt
  constructor
  · simp [schedule_appointment, hph, hp]
  · simp [schedule_appointment, hph, hp]

/-- Closed witness for C9: `"01/01/2020"` against today = 12/10/2026, with
a valid phone, is rejected before any backend call. -/
theorem claim_C9_past_date_rejected_witness :
    parse_relative_date ⟨12, 10, 2026⟩ (some "01/01/2020") none =
      (none, some "La fecha no puede ser anterior a hoy. Por favor, especifica una fecha válida.") ∧
    (schedule_appointment ⟨12, 10, 2026⟩ 0 1 (some "u") (some "Ana") (some "987654321")
        (some "01/01/2020") none (some "09:00") none (AwaitResult.resolved "r")
        AwaitOutcome.cancelled ⟨false, none, none, none, none, none, [], none⟩).reply =
      Except.ok "La fecha no puede ser anterior a hoy. Por favor, especifica una fecha válida." :=
  ⟨claim_C9_past_date_rejected.1 ⟨12, 10, 2026⟩ ⟨1, 1, 2020⟩ "01/01/2020" none
      (by decide) (by decide) (by decide) (by decide) (by decide),
   (claim_C9_past_date_rejected.2 ⟨12, 10, 2026⟩ ⟨1, 1, 2020⟩ "01/01/2020" none 0 1
      (some "u") (some "Ana") (some "987654321") "+51987654321" (some "09:00") none
      (AwaitResult.resolved "r") AwaitOutcome.cancelled
      ⟨false, none, none, none, none, none, [], none⟩
      (by decide) (by decide) (by decide) (by decide) (by decide) (by decide)).1⟩

/-- Deleting a single-character pattern is exactly a character filter. -/
theorem pyReplaceDelAux_single (c : Char) :
    ∀ (fuel : Nat) (l : List Char), l.length ≤ fuel →
      pyReplaceDelAux c [] fuel l = l.filter (fun a => !(a == c)) := by
  intro fuel
  induction fuel with
  | zero =>
    intro l hl
    have h0 : l = [] := List.length_eq_zero.mp (Nat.le_zero.mp hl)
    subst h0; rfl
  | succ n ih =>
    intro l hl
    cases l with
    | nil => rfl
    | cons a rest =>
      have hr : rest.length ≤ n := by
        simp only [List.length_cons] at hl; omega
      by_cases h : a = c
      · subst h
        simp [pyReplaceDelAux, startsWithL, ih rest hr, List.filter_cons]
      · have hba : (c == a) = false := beq_eq_false_iff_ne.mpr (Ne.symm h)
        have hab : (a == c) = false := beq_eq_false_iff_ne.mpr h
        simp [pyReplaceDelAux, startsWithL, hba, hab, ih rest hr, List.filter_cons]

/-- The single-char-pattern delete as used by `clean_answer`. -/
theorem pyReplaceDel_single (c : Char) (l : List Char) :
    pyReplaceDel c [] l = l.filter (fun a => !(a == c)) :=
  pyReplaceDelAux_single c l.length l (Nat.le_refl _)

/-- Deleting `"**"` occurrences deletes only `'*'` characters: the
non-asterisk residue is unchanged. -/
theorem filter_replace_double_star :
    ∀ (fuel : Nat) (l : List Char), l.length ≤ fuel →
      (pyReplaceDelAux '*' ['*'] fuel l).filter (fun a => !(a == '*')) =
        l.filter (fun a => !(a == '*')) := by
  intro fuel
  induction fuel with
  | zero =>
    intro l hl
    have h0 : l = [] := List.length_eq_zero.mp (Nat.le_zero.mp hl)
    subst h0; rfl
  | succ n ih =>
    intro l hl
    match l with
    | [] => rfl
    | a :: rest =>
      by_cases h2 : startsWithL ['*', '*'] (a :: rest) = true
      · cases rest with
        | nil => simp [startsWithL] at h2
        | cons b rest2 =>
          simp only [startsWithL, Bool.and_eq_true, beq_iff_eq] at h2
          obtain ⟨ha, hb, -⟩ := h2
          subst ha; subst hb
          have hr : rest2.length ≤ n := by
            simp only [List.length_cons] at hl; omega
          have hinner : pyReplaceDelAux '*' ['*'] (n + 1) ('*' :: '*' :: rest2) =
              pyReplaceDelAux '*' ['*'] n rest2 := by
            simp [pyReplaceDelAux, startsWithL]
          rw [hinner, ih rest2 hr]
          simp [List.filter_cons]
      · have hstep : pyReplaceDelAux '*' ['*'] (n + 1) (a :: rest) =
            a :: pyReplaceDelAux '*' ['*'] n rest := by
          simp only [pyReplaceDelAux]
          rw [if_neg h2]
        have hr : rest.length ≤ n := by
          simp only [List.length_cons] at hl; omega
        rw [hstep]
        simp only [List.filter_cons]
        rw [ih rest hr]

/-- Claim C10: on a successful backend response, the returned utterance is
the `"answer"` field with every `"**"`, `"*"` and `"📞"` occurrence
removed and surrounding whitespace stripped (equivalently: all `'*'` and
`'📞'` characters filtered out, then stripped); when the `"answer"` key is
absent the fixed default utterance is returned unchanged. -/
theorem claim_C10_answer_cleaning :
    (∀ s : String, clean_answer s =
      String.mk (pyStrip (((s.data.filter (fun a => !(a == '*'))).filter
        (fun a => !(a == '📞')))))) ∧
    (∀ url ans, perform_query (some url) (NetResult.response 200 (some ans)) =
      Except.ok (clean_answer ans)) ∧
    (∀ url, perform_query (some url) (NetResult.response 200 none) =
      Except.ok "No encontré una respuesta clara a tu consulta.") := by
  refine ⟨?_, ?_, ?_⟩
  · intro s
    unfold clean_answer
    rw [pyReplaceDel_single, pyReplaceDel_single]
    unfold pyReplaceDel
    rw [filter_replace_double_star s.data.length s.data (Nat.le_refl _)]
  · intro url ans
    simp [perform_query, raise_for_status]
  · intro url
    simp [perform_query, raise_for_status]
    decide

end VoiceAgent
